import Mathlib

/-!
Shallow embedding of `src/pyshell.py` (the `Shell` class: a recursive
interactive shell framework) and verification of its specification.

Modelling conventions:
* Python strings are Lean `String`s (all relevant data is ASCII).
* The readline library's ambient state (history buffer, insert_text calls)
  and the shell's streams are gathered in a `World` record that is threaded
  explicitly through every operation that has side effects in the source.
* A Python exception that escapes a function is an `Except .error` result.
* Python handler return values (`None`, `False`, `True`, `'end'`) are the
  inductive `RetVal`; Python `==` comparisons on them are `RetVal` equality.
-/

deriving instance DecidableEq for Except

namespace PyShell

/-- Python handler return values that flow into `exit_directive`:
`None`, `False`, `True` and the string `'end'`. -/
inductive RetVal where
  | pyNone
  | pyFalse
  | pyTrue
  | pyEnd
deriving DecidableEq

/-- Model of `Shell._Mode` (src/pyshell.py lines 85-90): the launch
arguments and the prompt display label of one nesting level. -/
structure Mode where
  args : List String
  prompt_display : String
deriving DecidableEq

/-- The per-Session state fixed at `Shell.__init__` time (src/pyshell.py
lines 95-122): the mode stack, the root prompt label, the shared temporary
directory and the command registry (an insertion-ordered dict, modelled as
an association list from command name to method name). -/
structure ShellState where
  mode_stack : List Mode
  root_prompt : String
  temp_dir : String
  cmd_map : List (String × String)
deriving DecidableEq

/-- The ambient mutable world: the file system (path to list of history
entries), the readline in-memory history buffer, the two output streams
(as lists of written strings), the texts passed to `readline.insert_text`,
the external processes spawned, and the handler methods invoked. -/
structure World where
  fs : List (String × List String)
  histbuf : List String
  stderrW : List String
  stdoutW : List String
  inserted : List String
  spawned : List (List String)
  invoked : List (String × List String)
deriving DecidableEq

/-- Lookup in the file-system model. -/
def fsLookup (fs : List (String × List String)) (p : String) : Option (List String) :=
  (fs.find? (fun e => e.1 == p)).map Prod.snd

/-- Overwrite (or create) a file in the file-system model; this is what
`readline.write_history_file` does to its target path. -/
def fsUpdate (fs : List (String × List String)) (p : String) (v : List String) :
    List (String × List String) :=
  (fs.filter (fun e => !(e.1 == p))) ++ [(p, v)]

/-- Characters stripped by Python's `str.strip()` / `str.lstrip()`. -/
def pyWhitespace (c : Char) : Bool :=
  c == ' ' || c == '\t' || c == '\n' || c == '\r' || c == Char.ofNat 11 || c == Char.ofNat 12

/-- Python `str.strip()`. -/
def pyStrip (s : String) : String :=
  ⟨((s.data.dropWhile pyWhitespace).reverse.dropWhile pyWhitespace).reverse⟩

/-- Python `str.lstrip()`. -/
def pyLStrip (s : String) : String :=
  ⟨s.data.dropWhile pyWhitespace⟩

/-- Model of `Shell.EOF = chr(ord('D') - 64)` (src/pyshell.py line 92): the
single end-of-input sentinel character, code point 4. -/
def EOF : String := ⟨[Char.ofNat 4]⟩

/-! ### Model of `shlex.split`

`Shell._parse_line` tokenizes with `shlex.split`, the standard POSIX
shell word-splitter: whitespace separates tokens, single quotes group
literally, double quotes group with backslash escaping only `"` and `\`,
a backslash outside quotes escapes the next character, and an
unterminated quote or trailing escape raises `ValueError` (the spec's
`ParseError`). -/

/-- The two `ValueError`s `shlex` raises while splitting. -/
inductive ParseError where
  | noClosingQuotation
  | noEscapedCharacter
deriving DecidableEq

/-- The single-quote character. -/
def squote : Char := Char.ofNat 39

/-- The double-quote character. -/
def dquote : Char := Char.ofNat 34

/-- The backslash character. -/
def bslash : Char := Char.ofNat 92

/-- The token-separating characters of `shlex`: space, tab, carriage return
and newline. -/
def shlexWhitespace (c : Char) : Bool :=
  c == ' ' || c == '\t' || c == '\r' || c == '\n'

/-- Append one character to the token under construction (starting one if
none is open). -/
def pushTok (cur : Option (List Char)) (c : Char) : Option (List Char) :=
  some (cur.getD [] ++ [c])

/-- Ensure a token is open (a quote opens a token even if it stays empty,
so `""` yields one empty token). -/
def openTok (cur : Option (List Char)) : Option (List Char) :=
  some (cur.getD [])

/-- Emit the token under construction, if one is open. -/
def flushTok (cur : Option (List Char)) (acc : List String) : List String :=
  match cur with
  | none => acc
  | some t => acc ++ [⟨t⟩]

/-- Lexer modes of the splitter: outside quotes, inside single quotes,
inside double quotes, after a backslash outside quotes, after a backslash
inside double quotes. -/
inductive LexMode where
  | normal
  | inSingle
  | inDouble
  | escNormal
  | escDouble
deriving DecidableEq

/-- One pass of the POSIX word splitter over the remaining characters. -/
def shlexRun (mode : LexMode) (cur : Option (List Char)) (acc : List String) :
    List Char → Except ParseError (List String)
  | [] =>
    match mode with
    | .normal => .ok (flushTok cur acc)
    | .inSingle => .error .noClosingQuotation
    | .inDouble => .error .noClosingQuotation
    | .escNormal => .error .noEscapedCharacter
    | .escDouble => .error .noEscapedCharacter
  | c :: rest =>
    match mode with
    | .normal =>
      if shlexWhitespace c then shlexRun .normal none (flushTok cur acc) rest
      else if c == squote then shlexRun .inSingle (openTok cur) acc rest
      else if c == dquote then shlexRun .inDouble (openTok cur) acc rest
      else if c == bslash then shlexRun .escNormal (openTok cur) acc rest
      else shlexRun .normal (pushTok cur c) acc rest
    | .inSingle =>
      if c == squote then shlexRun .normal cur acc rest
      else shlexRun .inSingle (pushTok cur c) acc rest
    | .inDouble =>
      if c == dquote then shlexRun .normal cur acc rest
      else if c == bslash then shlexRun .escDouble cur acc rest
      else shlexRun .inDouble (pushTok cur c) acc rest
    | .escNormal => shlexRun .normal (pushTok cur c) acc rest
    | .escDouble =>
      if c == dquote || c == bslash then shlexRun .inDouble (pushTok cur c) acc rest
      else shlexRun .inDouble (pushTok (pushTok cur bslash) c) acc rest

/-- Model of `shlex.split` (POSIX mode, as used at src/pyshell.py line 309). -/
def shlexSplit (s : String) : Except ParseError (List String) :=
  shlexRun .normal none [] s.data

/-- Model of `Shell._parse_line` (src/pyshell.py lines 280-319): the EOF
sentinel becomes `('exit', [])` after echoing the text `'exit\n'` into the
input buffer via `readline.insert_text`; otherwise the stripped line is
split by `shlex.split` (an unterminated quote's `ValueError` propagates),
an empty token list gives `('', [])`, a first token `?` is rewritten to
`help`, a first token `!` to `exec`, and the remaining tokens are the
argument list unchanged. -/
def parse_line (w : World) (line : String) : World × Except ParseError (String × List String) :=
  if line = EOF then
    ({w with inserted := w.inserted ++ ["exit\n"]}, .ok ("exit", []))
  else
    match shlexSplit (pyStrip line) with
    | .error e => (w, .error e)
    | .ok [] => (w, .ok ("", []))
    | .ok (t :: ts) =>
      let cmd := if t = "?" then "help" else if t = "!" then "exec" else t
      (w, .ok (cmd, ts))

/-! ### Prompt and history file name -/

/-- Model of the prompt computed at `Shell.__init__` (src/pyshell.py lines
114-116): an opening parenthesis, then the root prompt label and every
mode's `prompt_display` joined by `-`, then a closing parenthesis, `$` and
a space. -/
def prompt (sh : ShellState) : String :=
  "(" ++ String.intercalate "-" (sh.root_prompt :: sh.mode_stack.map Mode.prompt_display)
      ++ ")$ "

/-- Model of `Shell.history_fname` (src/pyshell.py lines 145-148):
`os.path.join(self._temp_dir, 'history', 's-' + self.prompt[1:-2])`.
Python's slice `[1:-2]` keeps the characters at indices `1 .. len-3`,
i.e. drops the first character and the last two. -/
def history_fname (sh : ShellState) : String :=
  sh.temp_dir ++ "/history/" ++ "s-" ++ (⟨((prompt sh).data.drop 1).dropLast.dropLast⟩ : String)

/-! ### Command registry and dispatch -/

/-- The command map `Shell.__build_cmd_map` produces for the base `Shell`
class (src/pyshell.py lines 124-139): `dir(self)` enumerates attributes in
sorted order, so the decorated methods are visited as `_do_end`, `_do_exec`,
`_do_exit`, `_do_help`, `_do_history`, inserting their registered command
names in that order. -/
def base_cmd_map : List (String × String) :=
  [("end", "_do_end"), ("exec", "_do_exec"), ("exit", "_do_exit"),
   ("help", "_do_help"), ("history", "_do_history")]

/-- Dict lookup `self._cmd_map[cmd]` (with the `cmd in keys` test). -/
def cmdLookup (m : List (String × String)) (c : String) : Option String :=
  (m.find? (fun e => e.1 == c)).map Prod.snd

/-- Invocation of a handler method by name, `getattr(self, func_name)(args)`
(src/pyshell.py lines 336-338), for the base class's built-in handlers
(src/pyshell.py lines 340-374):
* `_do_end` returns `'end'`;
* `_do_exec` with empty args writes `"exec: empty command\n"` to stderr and
  returns `None`, otherwise spawns the arguments as an external process and
  returns `None`;
* `_do_exit` returns `True`;
* `_do_help` returns `None`;
* `_do_history` flushes the history buffer to the history file, prints the
  file's contents to stdout and returns `None`.
Every invocation is recorded in `World.invoked`. An unknown method name
(a subclass handler outside this model) is recorded and returns `None`. -/
def dispatch (sh : ShellState) (w : World) (fname : String) (args : List String) :
    World × RetVal :=
  let w := {w with invoked := w.invoked ++ [(fname, args)]}
  if fname = "_do_end" then (w, .pyEnd)
  else if fname = "_do_exec" then
    if args = [] then ({w with stderrW := w.stderrW ++ ["exec: empty command\n"]}, .pyNone)
    else ({w with spawned := w.spawned ++ [args]}, .pyNone)
  else if fname = "_do_exit" then (w, .pyTrue)
  else if fname = "_do_help" then (w, .pyNone)
  else if fname = "_do_history" then
    let fs2 := fsUpdate w.fs (history_fname sh) w.histbuf
    let contents := (fsLookup fs2 (history_fname sh)).getD []
    ({w with fs := fs2, stdoutW := w.stdoutW ++ contents}, .pyNone)
  else (w, .pyNone)

/-- Model of `Shell.__exec_cmd` (src/pyshell.py lines 321-338): an empty
line is a no-op returning `None`; otherwise the line is parsed (a parse
error propagates uncaught), a command missing from `self._cmd_map` writes
`"<cmd>: command not found\n"` to stderr and returns `None`, and a known
command dispatches to its handler, whose return value is the result. -/
def exec_cmd (sh : ShellState) (w : World) (line : String) :
    World × Except ParseError RetVal :=
  if line = "" then (w, .ok .pyNone)
  else
    match parse_line w line with
    | (w1, .error e) => (w1, .error e)
    | (w1, .ok (cmd, args)) =>
      match cmdLookup sh.cmd_map cmd with
      | none => ({w1 with stderrW := w1.stderrW ++ [cmd ++ ": command not found\n"]}, .ok .pyNone)
      | some fname =>
        let r := dispatch sh w1 fname args
        (r.1, .ok r.2)

/-! ### The read-eval loop -/

/-- How a run of the loop ends. -/
inductive LoopOutcome where
  | finished (d : RetVal)
  | crashed (e : ParseError)
  | starved
deriving DecidableEq

/-- The `while True` loop of `Shell.cmdloop` (src/pyshell.py lines 257-268),
run against a finite script of input lines. Each iteration first applies the
break test (`if exit_directive == 'end': if self._mode_stack: break` /
`elif exit_directive == True: break`), then reads a line: a scripted line is
recorded in the readline history buffer (when non-empty) and executed after
`.strip()`; when the script is exhausted, `input` raises `EOFError` and the
line becomes the `EOF` sentinel (src/pyshell.py lines 264-267) — that one
synthesized iteration is unrolled here, and `.starved` marks the (for the
built-in registry unreachable) case where even the sentinel's directive
would not break the loop. A `ParseError` escaping `__exec_cmd` is not
caught by the loop and aborts it (`.crashed`). -/
def cmdloop_run (sh : ShellState) (w : World) (d : RetVal) (script : List String) :
    World × LoopOutcome :=
  if (if d = .pyEnd then sh.mode_stack ≠ [] else d = .pyTrue) then
    (w, .finished d)
  else
    match script with
    | [] =>
      match exec_cmd sh w EOF with
      | (w1, .error e) => (w1, .crashed e)
      | (w1, .ok d2) =>
        if (if d2 = .pyEnd then sh.mode_stack ≠ [] else d2 = .pyTrue) then
          (w1, .finished d2)
        else (w1, .starved)
    | l :: rest =>
      let w1 := if l ≠ "" then {w with histbuf := w.histbuf ++ [l]} else w
      match exec_cmd sh w1 (pyStrip l) with
      | (w2, .error e) => (w2, .crashed e)
      | (w2, .ok d2) => cmdloop_run sh w2 d2 rest

/-- The history steps `Shell.cmdloop` performs before its loop
(src/pyshell.py lines 238-247): read this level's history file into the
readline buffer if the file exists, then `readline.clear_history()` starts
a new buffer. (The completer and completer-delimiter save/install steps
carry no state any claim depends on and are not recorded.) -/
def cmdloop_enter (sh : ShellState) (w : World) : World :=
  let w1 :=
    match fsLookup w.fs (history_fname sh) with
    | some h => {w with histbuf := w.histbuf ++ h}
    | none => w
  {w1 with histbuf := []}

/-- Model of `Shell.cmdloop` (src/pyshell.py lines 195-278): the enter
steps, the loop started with `exit_directive = False`, and the `finally`
block, which (even when the loop aborts with an uncaught exception) writes
the history buffer to this level's history file and returns the pending
directive to the caller. -/
def cmdloop (sh : ShellState) (w : World) (script : List String) :
    World × LoopOutcome :=
  let w0 := cmdloop_enter sh w
  let r := cmdloop_run sh w0 .pyFalse script
  ({r.1 with fs := fsUpdate r.1.fs (history_fname sh) r.1.histbuf}, r.2)

/-! ### Subshell launch -/

/-- The directive translation at the end of `Shell.launch_subshell`
(src/pyshell.py line 193): `return 'end' if exit_directive == 'end' else
False`. -/
def launch_subshell_result (exit_directive : RetVal) : RetVal :=
  if exit_directive = .pyEnd then .pyEnd else .pyFalse

/-- Resolution of the display label at src/pyshell.py line 175
(`prompt_display if prompt_display else shell_cls.__name__`): an absent or
empty (falsy) display label falls back to the class name. -/
def resolve_prompt_display (pd : Option String) (clsName : String) : String :=
  match pd with
  | none => clsName
  | some p => if p = "" then clsName else p

/-- The child Session `Shell.launch_subshell` constructs (src/pyshell.py
lines 175-183): a fresh `Mode` from the arguments and display label, a mode
stack equal to `self._mode_stack + [mode]` (list concatenation builds a new
list; the parent's list is not mutated), the parent's `temp_dir`, the
default `root_prompt` (`'root'`, not overridden by `launch_subshell`), and
the child class's own command map. -/
def launch_child (parent : ShellState) (child_cmd_map : List (String × String))
    (args : List String) (pd : Option String) (clsName : String) : ShellState :=
  { mode_stack := parent.mode_stack ++ [⟨args, resolve_prompt_display pd clsName⟩],
    root_prompt := "root",
    temp_dir := parent.temp_dir,
    cmd_map := child_cmd_map }

/-! ### Completion -/

/-- Whether the first character list is a prefix of the second. -/
def prefixOfList : List Char → List Char → Bool
  | [], _ => true
  | _ :: _, [] => false
  | c :: cs, d :: ds => c == d && prefixOfList cs ds

/-- Python `name.startswith(text)`. -/
def pyStartsWith (name text : String) : Bool :=
  prefixOfList text.data name.data

/-- Model of `Shell.__complete_cmds` (src/pyshell.py lines 475-477): the
registry's command names, in registry order, filtered to those starting
with the given text. -/
def complete_cmds (sh : ShellState) (text : String) : List String :=
  (sh.cmd_map.map Prod.fst).filter (fun name => pyStartsWith name text)

/-- Python exceptions the completer can raise. -/
inductive PyErr where
  | indexError
deriving DecidableEq

/-- The last character of a string, if any. -/
def lastChar (s : String) : Option Char :=
  s.data.getLast?

/-- Python list indexing `lst[i]`: the element when `i` is in range. `none`
models the `IndexError` the out-of-range access raises. -/
def listIndex {α : Type} : List α → Nat → Option α
  | [], _ => none
  | a :: _, 0 => some a
  | _ :: as, n + 1 => listIndex as n

/-- Model of `Shell.__driver_completer` (src/pyshell.py lines 376-439), as
a function of the full line buffer, the completion region start `begidx`,
the completion scope `text` and the attempt index `state`:
* if the left-stripped buffer is non-empty and ends in `?`, the help block
  is displayed (its printing to stdout is not modelled; no claim depends on
  it) and no candidate is returned;
* otherwise, with `offset` the length of the stripped leading whitespace,
  if `begidx - offset == 0` the result is `self.__complete_cmds(text)[state]`
  — a Python list indexing, which raises `IndexError` when `state` is not
  below the number of matches;
* otherwise (completing an argument) no candidate is returned. -/
def driver_completer (sh : ShellState) (origline : String) (begidx : Int)
    (text : String) (state : Nat) : Except PyErr (Option String) :=
  let line := pyLStrip origline
  if line ≠ "" ∧ lastChar line = some '?' then
    .ok none
  else
    let offset : Int := (origline.data.length : Int) - (line.data.length : Int)
    let begidx2 := begidx - offset
    if begidx2 = 0 then
      match listIndex (complete_cmds sh text) state with
      | some c => .ok (some c)
      | none => .error .indexError
    else
      .ok none

/-! ### Concrete fixtures used by witnesses and counterexamples -/

/-- An initial world: empty file system, empty history buffer, nothing
written, inserted, spawned or invoked. -/
def w0 : World := ⟨[], [], [], [], [], [], []⟩

/-- A Session one level deep (one mode on the stack) with the base command
registry. -/
def shSub : ShellState := ⟨[⟨[], "S"⟩], "root", "/t", base_cmd_map⟩

/-- A second Session value with the same fields as `shSub`. -/
def shSubCopy : ShellState := ⟨[⟨[], "S"⟩], "root", "/t", base_cmd_map⟩

/-- A root Session (empty mode stack) with the base command registry. -/
def shRoot : ShellState := ⟨[], "root", "/t", base_cmd_map⟩

/-- The Session of the docstring example in `Shell.cmdloop` (src/pyshell.py
lines 206-209): its prompt is `(Foo-Bar-Kar)$ `. -/
def shFBK : ShellState := ⟨[⟨[], "Bar"⟩, ⟨[], "Kar"⟩], "Foo", "/tmp/d", base_cmd_map⟩

/-! ### Helper lemmas -/

/-- The pre-loop steps of `cmdloop` always leave the readline history
buffer empty: the read of the history file at src/pyshell.py line 240 is
immediately nullified by the `readline.clear_history()` at line 247. -/
theorem cmdloop_enter_eq (sh : ShellState) (w : World) :
    cmdloop_enter sh w = {w with histbuf := []} := by
  unfold cmdloop_enter
  cases fsLookup w.fs (history_fname sh) <;> rfl

/-- Executing the line `end` under the base registry dispatches `_do_end`,
which returns the directive `'end'`. -/
theorem exec_cmd_end (stack : List Mode) (rp td : String) (w : World) :
    exec_cmd ⟨stack, rp, td, base_cmd_map⟩ w "end"
      = ({w with invoked := w.invoked ++ [("_do_end", [])]}, .ok .pyEnd) := rfl

/-- One loop iteration that reads the line `end`. -/
theorem cmdloop_run_end_step (stack : List Mode) (rp td : String) (w : World)
    (rest : List String) :
    cmdloop_run ⟨stack, rp, td, base_cmd_map⟩ w .pyFalse ("end" :: rest)
      = cmdloop_run ⟨stack, rp, td, base_cmd_map⟩
          {w with histbuf := w.histbuf ++ ["end"], invoked := w.invoked ++ [("_do_end", [])]}
          .pyEnd rest := rfl

/-- With a non-empty mode stack, a pending `'end'` directive breaks the
loop at once and becomes the loop's result. -/
theorem cmdloop_run_break_end (sh : ShellState) (w : World) (script : List String)
    (h : sh.mode_stack ≠ []) :
    cmdloop_run sh w .pyEnd script = (w, .finished .pyEnd) := by
  cases script <;> simp [cmdloop_run, h]

/-- With an empty mode stack (the root), a pending `'end'` directive does
not break the loop: the iteration proceeds exactly as with `False`. -/
theorem cmdloop_run_root_end (sh : ShellState) (w : World) (script : List String)
    (h : sh.mode_stack = []) :
    cmdloop_run sh w .pyEnd script = cmdloop_run sh w .pyFalse script := by
  cases script <;> simp [cmdloop_run, h]

/-- Any pending directive other than `'end'` and `True` lets the loop
proceed exactly as with `False`. -/
theorem cmdloop_run_continue (sh : ShellState) (w : World) (script : List String)
    (d : RetVal) (h1 : d ≠ .pyEnd) (h2 : d ≠ .pyTrue) :
    cmdloop_run sh w d script = cmdloop_run sh w .pyFalse script := by
  cases script <;> simp [cmdloop_run, h1, h2]

/-- The outcome of `cmdloop` is the outcome of its loop (the trailing
history flush does not change it). -/
theorem cmdloop_snd (sh : ShellState) (w : World) (script : List String) :
    (cmdloop sh w script).2 = (cmdloop_run sh (cmdloop_enter sh w) .pyFalse script).2 := rfl

/-- Parsing a line never writes to the error stream, never invokes a
handler and never touches the history buffer. -/
theorem parse_line_world (w : World) (line : String) :
    (parse_line w line).1.stderrW = w.stderrW
  ∧ (parse_line w line).1.invoked = w.invoked
  ∧ (parse_line w line).1.histbuf = w.histbuf := by
  by_cases h : line = EOF
  · simp [parse_line, h]
  · rw [parse_line, if_neg h]
    cases hs : shlexSplit (pyStrip line) with
    | error e => simp
    | ok ts => cases ts <;> simp

/-! ### The claims -/

/-- C1: when a dispatched handler returns the `'end'` (ExitToRoot)
directive, a Session with a non-empty mode stack breaks its loop and
`cmdloop` returns `'end'` (first conjunct for the directive itself, second
end-to-end for the `end` built-in under the base registry);
`launch_subshell` propagates a child's `'end'` unchanged as its own result
and resolves every other child result to `False`/Continue (third
conjunct); at the root (empty mode stack) the `'end'` directive does not
break the loop, which proceeds exactly as with `False`, so `'end'` at the
root is a no-op (fourth conjunct). -/
theorem end_exit_to_root :
    (∀ (sh : ShellState) (w : World) (script : List String),
        sh.mode_stack ≠ [] →
        cmdloop_run sh w .pyEnd script = (w, .finished .pyEnd))
  ∧ (∀ (stack : List Mode) (rp td : String) (w : World) (rest : List String),
        stack ≠ [] →
        (cmdloop ⟨stack, rp, td, base_cmd_map⟩ w ("end" :: rest)).2 = .finished .pyEnd)
  ∧ (launch_subshell_result .pyEnd = .pyEnd
      ∧ ∀ d : RetVal, d ≠ .pyEnd → launch_subshell_result d = .pyFalse)
  ∧ (∀ (sh : ShellState) (w : World) (script : List String),
        sh.mode_stack = [] →
        cmdloop_run sh w .pyEnd script = cmdloop_run sh w .pyFalse script) := by
  refine ⟨cmdloop_run_break_end, ?_, ⟨rfl, ?_⟩, cmdloop_run_root_end⟩
  · intro stack rp td w rest h
    rw [cmdloop_snd, cmdloop_run_end_step, cmdloop_run_break_end _ _ _ h]
  · intro d hd
    cases d <;> simp [launch_subshell_result] at hd ⊢

/-- Witness for C1 at concrete inputs: a one-deep Session typing `end`
finishes with `'end'`; the launch translation maps `'end'` to `'end'` and
`True` to `False`; at the root a pending `'end'` continues like `False`. -/
theorem end_exit_to_root_witness :
    cmdloop_run shSub w0 .pyEnd ["exit"] = (w0, .finished .pyEnd)
  ∧ (cmdloop shSub w0 ["end"]).2 = .finished .pyEnd
  ∧ launch_subshell_result .pyEnd = .pyEnd
  ∧ launch_subshell_result .pyTrue = .pyFalse
  ∧ cmdloop_run shRoot w0 .pyEnd ["exit"] = cmdloop_run shRoot w0 .pyFalse ["exit"] :=
  ⟨end_exit_to_root.1 shSub w0 ["exit"] (by decide),
   end_exit_to_root.2.1 [⟨[], "S"⟩] "root" "/t" w0 [] (by decide),
   end_exit_to_root.2.2.1.1,
   end_exit_to_root.2.2.1.2 .pyTrue (by decide),
   end_exit_to_root.2.2.2 shRoot w0 ["exit"] rfl⟩

/-- C2: two visits to the same nesting identity do NOT accumulate history.
The first visit (typing `foo`, then end of input) leaves the history file
holding `foo`; re-entering the same identity and typing `bar` leaves the
file holding only `bar`, not `foo` followed by `bar`: the read of the
history file at loop start (src/pyshell.py line 240) is nullified by
`readline.clear_history()` (line 247), so the flush at loop end (line 273)
overwrites the file with the second visit's entries alone. -/
theorem history_overwritten_on_reentry :
    fsLookup ((cmdloop shSub w0 ["foo"]).1.fs) (history_fname shSub) = some ["foo"]
  ∧ fsLookup ((cmdloop shSub (cmdloop shSub w0 ["foo"]).1 ["bar"]).1.fs) (history_fname shSub)
      = some ["bar"] := by
  constructor <;> decide

/-- Counterexample to C3 as stated: on the input line consisting of an
unterminated double quote, the loop does not report anything to the error
stream and does not continue — it aborts with the uncaught tokenizer
error. -/
theorem parse_error_crashes_loop :
    (cmdloop shSub w0 ["\"abc"]).2 = .crashed .noClosingQuotation
  ∧ (cmdloop shSub w0 ["\"abc"]).1.stderrW = [] := by
  constructor <;> decide

/-- C3 amended: a line with malformed quoting makes the tokenizer raise a
parse error that no caller catches: `__exec_cmd` propagates it with the
world unchanged, and `cmdloop` aborts with that error, writing nothing to
the error stream (its `finally` block still flushes history). -/
theorem parse_error_propagates (sh : ShellState) (w : World) (l : String)
    (rest : List String) (e : ParseError)
    (h0 : l ≠ "") (h1 : l ≠ EOF) (h2 : pyStrip l = l) (h3 : shlexSplit l = .error e) :
    exec_cmd sh w l = (w, .error e)
  ∧ (cmdloop sh w (l :: rest)).2 = .crashed e
  ∧ (cmdloop sh w (l :: rest)).1.stderrW = w.stderrW := by
  have hexec : ∀ w2 : World, exec_cmd sh w2 l = (w2, .error e) := by
    intro w2
    simp [exec_cmd, h0, parse_line, h1, h2, h3]
  have hrun : cmdloop_run sh {w with histbuf := []} .pyFalse (l :: rest)
      = ({w with histbuf := [l]}, .crashed e) := by
    simp [cmdloop_run, h0, h2, hexec]
  have hc : cmdloop sh w (l :: rest)
      = ({w with histbuf := [l], fs := fsUpdate w.fs (history_fname sh) [l]}, .crashed e) := by
    simp [cmdloop, cmdloop_enter_eq, hrun]
  exact ⟨hexec w, by rw [hc], by rw [hc]⟩

/-- Witness for the amended C3 at the concrete unterminated-quote line. -/
theorem parse_error_propagates_witness :
    exec_cmd shSub w0 "\"abc" = (w0, .error .noClosingQuotation)
  ∧ (cmdloop shSub w0 ["\"abc"]).2 = .crashed .noClosingQuotation
  ∧ (cmdloop shSub w0 ["\"abc"]).1.stderrW = w0.stderrW :=
  parse_error_propagates shSub w0 "\"abc" [] .noClosingQuotation
    (by decide) (by decide) (by decide) (by decide)

/-- C4: the Session whose prompt is `(Foo-Bar-Kar)$ ` uses the history
file `s-Foo-Bar-Kar)` — the closing parenthesis is kept, because the
slice at src/pyshell.py line 148 drops only the first and the last two
characters of the prompt, while the docstring (lines 206-209) and the
claim state the name `s-Foo-Bar-Kar`. -/
theorem history_fname_keeps_paren :
    prompt shFBK = "(Foo-Bar-Kar)$ "
  ∧ history_fname shFBK = "/tmp/d/history/s-Foo-Bar-Kar)" := by
  constructor <;> rfl

/-- C5: executing a non-empty line whose parsed command is not a key of
the registry returns `None` (Continue), writes exactly the command name
followed by `: command not found` and a newline to the error stream,
invokes no handler, and the `None` directive lets the loop proceed exactly
as with `False`. -/
theorem unknown_command (sh : ShellState) (w : World) (line cmd : String)
    (args : List String) (script : List String)
    (h0 : line ≠ "")
    (h1 : (parse_line w line).2 = .ok (cmd, args))
    (h2 : cmdLookup sh.cmd_map cmd = none) :
    (exec_cmd sh w line).2 = .ok .pyNone
  ∧ (exec_cmd sh w line).1.stderrW = w.stderrW ++ [cmd ++ ": command not found\n"]
  ∧ (exec_cmd sh w line).1.invoked = w.invoked
  ∧ cmdloop_run sh w .pyNone script = cmdloop_run sh w .pyFalse script := by
  have hw := parse_line_world w line
  have hx : exec_cmd sh w line
      = ({(parse_line w line).1 with
            stderrW := (parse_line w line).1.stderrW ++ [cmd ++ ": command not found\n"]},
         .ok .pyNone) := by
    rw [exec_cmd, if_neg h0]
    cases hp : parse_line w line with
    | mk w1 r =>
      rw [hp] at h1
      simp at h1
      rw [h1]
      simp [h2, hp]
  refine ⟨by rw [hx], by rw [hx]; simp [hw.1], by rw [hx]; simp [hw.2.1], ?_⟩
  exact cmdloop_run_continue sh w script .pyNone (by decide) (by decide)

/-- Witness for C5 at the concrete unknown command `zz`. -/
theorem unknown_command_witness :
    (exec_cmd shSub w0 "zz").2 = .ok .pyNone
  ∧ (exec_cmd shSub w0 "zz").1.stderrW = w0.stderrW ++ ["zz" ++ ": command not found\n"]
  ∧ (exec_cmd shSub w0 "zz").1.invoked = w0.invoked
  ∧ cmdloop_run shSub w0 .pyNone [] = cmdloop_run shSub w0 .pyFalse [] :=
  unknown_command shSub w0 "zz" "zz" [] [] (by decide) (by decide) (by decide)

/-- C6: `_parse_line` maps the EOF sentinel to `('exit', [])` while
echoing the text `exit` (followed by a newline) into the input buffer;
any other line is tokenized by the POSIX word splitter on the stripped
line, an empty token list gives an empty command, a first token `?` is
rewritten to `help`, a first token `!` to `exec`, any other first token is
the command itself, and the remaining tokens are the argument list
unchanged. -/
theorem parse_line_cases (w : World) (line t : String) (ts : List String) :
    (parse_line w EOF
       = ({w with inserted := w.inserted ++ ["exit\n"]}, .ok ("exit", [])))
  ∧ (line ≠ EOF → shlexSplit (pyStrip line) = .ok [] →
        parse_line w line = (w, .ok ("", [])))
  ∧ (line ≠ EOF → shlexSplit (pyStrip line) = .ok ("?" :: ts) →
        parse_line w line = (w, .ok ("help", ts)))
  ∧ (line ≠ EOF → shlexSplit (pyStrip line) = .ok ("!" :: ts) →
        parse_line w line = (w, .ok ("exec", ts)))
  ∧ (line ≠ EOF → t ≠ "?" → t ≠ "!" → shlexSplit (pyStrip line) = .ok (t :: ts) →
        parse_line w line = (w, .ok (t, ts))) := by
  refine ⟨by simp [parse_line, EOF], ?_, ?_, ?_, ?_⟩ <;> intro h hs
  · simp [parse_line, h, hs]
  · simp [parse_line, h, hs]
  · simp [parse_line, h, hs]
  · intro h2 hs2
    simp [parse_line, h, hs, h2, hs2]

/-- Witness for C6 at concrete lines, one per case. -/
theorem parse_line_cases_witness :
    parse_line w0 EOF
      = ({w0 with inserted := w0.inserted ++ ["exit\n"]}, .ok ("exit", []))
  ∧ parse_line w0 "   " = (w0, .ok ("", []))
  ∧ parse_line w0 "? a b" = (w0, .ok ("help", ["a", "b"]))
  ∧ parse_line w0 "! ls -l" = (w0, .ok ("exec", ["ls", "-l"]))
  ∧ parse_line w0 "foo x \"y z\"" = (w0, .ok ("foo", ["x", "y z"])) :=
  ⟨(parse_line_cases w0 "" "" []).1,
   (parse_line_cases w0 "   " "" []).2.1 (by decide) (by decide),
   (parse_line_cases w0 "? a b" "" ["a", "b"]).2.2.1 (by decide) (by decide),
   (parse_line_cases w0 "! ls -l" "" ["ls", "-l"]).2.2.2.1 (by decide) (by decide),
   (parse_line_cases w0 "foo x \"y z\"" "foo" ["x", "y z"]).2.2.2.2
     (by decide) (by decide) (by decide) (by decide)⟩

/-- C7: the prompt is the pure function of the root label and the mode
stack given by the parenthesized dash-join, and any two Sessions agreeing
on root label, mode stack and temporary directory have identical prompts
and identical history file paths. -/
theorem prompt_pure_function (sh sh2 : ShellState)
    (h1 : sh.root_prompt = sh2.root_prompt) (h2 : sh.mode_stack = sh2.mode_stack)
    (h3 : sh.temp_dir = sh2.temp_dir) :
    prompt sh = "(" ++ String.intercalate "-"
        (sh.root_prompt :: sh.mode_stack.map Mode.prompt_display) ++ ")$ "
  ∧ prompt sh = prompt sh2
  ∧ history_fname sh = history_fname sh2 := by
  refine ⟨rfl, ?_, ?_⟩ <;> simp [prompt, history_fname, h1, h2, h3]

/-- Witness for C7 on two structurally equal Session values. -/
theorem prompt_pure_function_witness :
    prompt shSub = "(" ++ String.intercalate "-"
        (shSub.root_prompt :: shSub.mode_stack.map Mode.prompt_display) ++ ")$ "
  ∧ prompt shSub = prompt shSubCopy
  ∧ history_fname shSub = history_fname shSubCopy :=
  prompt_pure_function shSub shSubCopy rfl rfl rfl

/-- C8: a launched child Session's mode stack is the parent's stack with
exactly one freshly constructed Mode appended; a second sibling launched
from the same parent sees the same parent stack with only its own Mode
appended, and never contains the first sibling's Mode (when that Mode is
neither in the parent's stack nor equal to its own). -/
theorem subshell_stack_append (parent : ShellState)
    (cm1 cm2 : List (String × String)) (a1 a2 : List String) (d1 d2 n1 n2 : String)
    (hd1 : d1 ≠ "") (hd2 : d2 ≠ "")
    (hnotin : Mode.mk a1 d1 ∉ parent.mode_stack)
    (hne : Mode.mk a1 d1 ≠ Mode.mk a2 d2) :
    (launch_child parent cm1 a1 (some d1) n1).mode_stack
        = parent.mode_stack ++ [Mode.mk a1 d1]
  ∧ (launch_child parent cm2 a2 (some d2) n2).mode_stack
        = parent.mode_stack ++ [Mode.mk a2 d2]
  ∧ Mode.mk a1 d1 ∉ (launch_child parent cm2 a2 (some d2) n2).mode_stack := by
  refine ⟨by simp [launch_child, resolve_prompt_display, hd1],
          by simp [launch_child, resolve_prompt_display, hd2], ?_⟩
  simp [launch_child, resolve_prompt_display, hd2, hnotin, hne]

/-- Witness for C8: two siblings launched from the same one-deep parent. -/
theorem subshell_stack_append_witness :
    (launch_child shSub base_cmd_map ["x"] (some "A") "ClsA").mode_stack
        = shSub.mode_stack ++ [Mode.mk ["x"] "A"]
  ∧ (launch_child shSub base_cmd_map ["y"] (some "B") "ClsB").mode_stack
        = shSub.mode_stack ++ [Mode.mk ["y"] "B"]
  ∧ Mode.mk ["x"] "A" ∉ (launch_child shSub base_cmd_map ["y"] (some "B") "ClsB").mode_stack :=
  subshell_stack_append shSub base_cmd_map base_cmd_map ["x"] ["y"] "A" "B" "ClsA" "ClsB"
    (by decide) (by decide) (by decide) (by decide)

/-- C9: when the buffer does not end in `?` and the completion region
starts at offset 0, the completer returns the attempt-index-th registry
command name having the partial text as a prefix, in registry order (first
conjunct); but when the matching names are exhausted it does NOT return
none — the list indexing raises IndexError, shown at the concrete input
`zz` with no matches (second conjunct), contrary to the docstring at
src/pyshell.py lines 383-385. -/
theorem completer_command_word (sh : ShellState) (origline text c : String)
    (begidx : Int) (state : Nat)
    (hq : ¬(pyLStrip origline ≠ "" ∧ lastChar (pyLStrip origline) = some '?'))
    (hb : begidx = (origline.data.length : Int) - ((pyLStrip origline).data.length : Int))
    (hc : listIndex (complete_cmds sh text) state = some c) :
    driver_completer sh origline begidx text state = .ok (some c)
  ∧ driver_completer shRoot "zz" 0 "zz" 0 = .error .indexError := by
  refine ⟨?_, by decide⟩
  rw [driver_completer, if_neg hq]
  simp [hb, hc]

/-- Witness for C9: completing `ex` at offset 0 yields `exec`, and the
exhausted case raises IndexError. -/
theorem completer_command_word_witness :
    driver_completer shRoot "ex" 0 "ex" 0 = .ok (some "exec")
  ∧ driver_completer shRoot "zz" 0 "zz" 0 = .error .indexError :=
  completer_command_word shRoot "ex" "ex" "exec" 0 0 (by decide) (by decide) (by decide)

/-- C10: invoking the `exec` built-in handler with an empty argument list
writes exactly `exec: empty command` and a newline to the error stream,
spawns no external process, and returns `None` (Continue), which lets the
loop proceed exactly as with `False`. -/
theorem exec_empty_command (sh : ShellState) (w : World) (script : List String) :
    dispatch sh w "_do_exec" []
      = ({w with invoked := w.invoked ++ [("_do_exec", [])],
                 stderrW := w.stderrW ++ ["exec: empty command\n"]}, .pyNone)
  ∧ (dispatch sh w "_do_exec" []).1.spawned = w.spawned
  ∧ cmdloop_run sh w .pyNone script = cmdloop_run sh w .pyFalse script :=
  ⟨rfl, rfl, cmdloop_run_continue sh w script .pyNone (by decide) (by decide)⟩

end PyShell
